import Mathlib

/-
Verification development for the worldbank country/indicator API repository.

The embedding models:
  - the two countries/country_data backed tables and their join
    (SELECT * FROM countries JOIN country_data ON iso2_code = country_code);
  - the latest-value reduction get_db_countries from api_utils.py, line by line:
    pandas groupby([iso2_code, indicator_code]).year.idxmax (first occurrence of
    the maximum year wins ties, groups emitted in sorted key order), column
    selection, per-iso_code indicator dictionaries with two-decimal rounding and
    None kept for missing values, drop_duplicates on the (iso_code, iso2_code,
    name) triple, and the final record list;
  - the variant of get_db_countries in api_utils_1.py that first checks in
    sqlite_master that both backing tables exist and returns [] otherwise,
    while the api_utils.py variant lets pandas read_sql raise in that case;
  - the three map endpoints of api_server.py, which restrict each indicator
    dictionary to a fixed set of five indicator codes, drop None values and,
    for the valid view, drop records named world (case-insensitively) or whose
    iso_code is outside the valid_iso3_codes allow-list, and for the regions
    view keep only the seven geo_regions codes;
  - the cache-aside single country lookup get_country_info of api_server.py
    over the country_details table, with save_country_to_db implementing
    INSERT OR REPLACE keyed by the UNIQUE code column;
  - the ingestion step fetch_single_indicator_data of database.py, which
    inserts an observation row only when the fetched item value is not null.

SQL REAL values are modelled as Option Rat (None is NULL); Python float
rounding round(x, 2) is modelled exactly on rationals as round-half-to-even
at two decimal places. Python str.lower/str.upper on the ASCII data involved
are modelled by strLower/strUpper below; the built-in String.toLower is not
used because its byte-level implementation does not reduce in the kernel.
-/

/-- Row of the countries table (columns used by the reduction). -/
structure CountriesRow where
  iso_code : String
  iso2_code : String
  name : String
  deriving DecidableEq

/-- Row of the country_data table: (country_code, indicator_code, year) is the
primary key; value is a nullable REAL column. -/
structure CountryDataRow where
  country_code : String
  indicator_code : String
  year : Int
  value : Option Rat
  deriving DecidableEq

/-- Row of the SQL join of countries with country_data on
countries.iso2_code = country_data.country_code. -/
structure JoinedRow where
  iso_code : String
  iso2_code : String
  name : String
  indicator_code : String
  year : Int
  value : Option Rat
  deriving DecidableEq

/-- SELECT * FROM countries JOIN country_data ON iso2_code = country_code,
in nested-loop order: countries outer, country_data inner. -/
def joinCountries (cs : List CountriesRow) (ds : List CountryDataRow) : List JoinedRow :=
  cs.flatMap fun c =>
    (ds.filter fun d => decide (d.country_code = c.iso2_code)).map fun d =>
      { iso_code := c.iso_code, iso2_code := c.iso2_code, name := c.name,
        indicator_code := d.indicator_code, year := d.year, value := d.value }

/-- ASCII lower-casing of one character, as Python str.lower acts on the
ASCII strings appearing in this data set. -/
def lowerChar (c : Char) : Char :=
  if 65 ≤ c.toNat ∧ c.toNat ≤ 90 then Char.ofNat (c.toNat + 32) else c

/-- ASCII lower-casing of a string (model of Python str.lower). -/
def strLower (s : String) : String := ⟨s.data.map lowerChar⟩

/-- ASCII upper-casing of one character, as Python str.upper acts on the
ASCII strings appearing in this data set. -/
def upperChar (c : Char) : Char :=
  if 97 ≤ c.toNat ∧ c.toNat ≤ 122 then Char.ofNat (c.toNat - 32) else c

/-- ASCII upper-casing of a string (model of Python str.upper). -/
def strUpper (s : String) : String := ⟨s.data.map upperChar⟩

/-- Lexicographic strict comparison of character lists. -/
def dataLt : List Char → List Char → Bool
  | [], [] => false
  | [], _ :: _ => true
  | _ :: _, [] => false
  | a :: as, b :: bs => decide (a.toNat < b.toNat) || (decide (a = b) && dataLt as bs)

/-- Lexicographic strict comparison of strings. -/
def strLt (a b : String) : Bool := dataLt a.data b.data

/-- Ordering on (iso2_code, indicator_code) group keys; pandas groupby emits
groups in ascending sorted key order. -/
def keyLe (k1 k2 : String × String) : Bool :=
  strLt k1.1 k2.1 || (decide (k1.1 = k2.1) && (strLt k1.2 k2.2 || decide (k1.2 = k2.2)))

/-- Insertion step of the insertion sort used to present group keys in
ascending order. -/
def insertKey (k : String × String) : List (String × String) → List (String × String)
  | [] => [k]
  | k2 :: ks => if keyLe k k2 then k :: k2 :: ks else k2 :: insertKey k ks

/-- Insertion sort on group keys (ascending, matching pandas groupby output
order on distinct keys). -/
def sortKeys : List (String × String) → List (String × String)
  | [] => []
  | k :: ks => insertKey k (sortKeys ks)

/-- Deduplication keeping the first occurrence, as pandas drop_duplicates
does; seen accumulates the values already emitted. -/
def dedupFirstAux {α : Type} [DecidableEq α] (seen : List α) : List α → List α
  | [] => []
  | a :: l => if a ∈ seen then dedupFirstAux seen l else a :: dedupFirstAux (a :: seen) l

/-- Deduplication keeping the first occurrence of each value. -/
def dedupFirst {α : Type} [DecidableEq α] (l : List α) : List α := dedupFirstAux [] l

/-- Rows of the join belonging to one (iso2_code, indicator_code) group. -/
def groupRows (rows : List JoinedRow) (a2 ind : String) : List JoinedRow :=
  rows.filter fun r => decide (r.iso2_code = a2 ∧ r.indicator_code = ind)

/-- Fold step of the idxmax selection: keep the current candidate unless a
strictly larger year appears, so the first occurrence of the maximum wins,
exactly as pandas Series.idxmax does. -/
def argmaxStep (acc : Option JoinedRow) (r : JoinedRow) : Option JoinedRow :=
  match acc with
  | none => some r
  | some b => if b.year < r.year then some r else some b

/-- Row selected by groupby.year.idxmax within one group: the first row
attaining the maximum year. -/
def argmaxYear (g : List JoinedRow) : Option JoinedRow :=
  g.foldl argmaxStep none

/-- Group key of a joined row, matching groupby([iso2_code, indicator_code]). -/
def rowKey (r : JoinedRow) : String × String := (r.iso2_code, r.indicator_code)

/-- Distinct group keys of the join, in the sorted order pandas groupby uses. -/
def groupKeys (rows : List JoinedRow) : List (String × String) :=
  sortKeys (dedupFirst (rows.map rowKey))

/-- Result of countries.loc[idx]: one surviving row per (iso2_code,
indicator_code) group, namely the first row of the group attaining the
maximum year, listed in sorted group key order. -/
def reducedRows (rows : List JoinedRow) : List JoinedRow :=
  (groupKeys rows).filterMap fun k => argmaxYear (groupRows rows k.1 k.2)

/-- Round-half-to-even of the integer fraction n / d for d > 0, computed on
integers: n.fdiv d is the floor, n - n.fdiv d * d the nonnegative remainder,
and a tie (twice the remainder equal to d) goes to the even neighbour, which
is the semantics of the Python built-in round. -/
def roundHalfEvenInt (n d : Int) : Int :=
  if 2 * (n - n.fdiv d * d) < d then n.fdiv d
  else if d < 2 * (n - n.fdiv d * d) then n.fdiv d + 1
  else if n.fdiv d % 2 = 0 then n.fdiv d else n.fdiv d + 1

/-- Model of Python round(float(v), 2): round-half-to-even at two decimal
places, computed exactly on the rational value. -/
def roundTo2 (q : Rat) : Rat :=
  Rat.divInt (roundHalfEvenInt (q.num * 100) (q.den : Int)) 100

/-- Value transformation of the indicator dictionaries: None stays None
(pd.isna check), everything else is rounded to two decimals. -/
def roundedValue (v : Option Rat) : Option Rat := v.map roundTo2

/-- Per-country indicator dictionary built by groupby(iso_code).apply: the
entries, in row order, are (indicator_code, rounded value), with None kept
for null values exactly as the source lambda writes None for NaN. -/
def indicatorMap (red : List JoinedRow) (a3 : String) : List (String × Option Rat) :=
  (red.filter fun r => decide (r.iso_code = a3)).map fun r =>
    (r.indicator_code, roundedValue r.value)

/-- Record emitted by get_db_countries: country codes, display name, and the
indicator dictionary. -/
structure CountryRecord where
  iso_code : String
  iso2_code : String
  name : String
  indicator : List (String × Option Rat)
  deriving DecidableEq

/-- Final record assembly of get_db_countries: drop_duplicates on the
(iso_code, iso2_code, name) triple of the reduced rows, then attach
indicator_map.get(iso, default empty) to each triple. -/
def recordsOfRows (rows : List JoinedRow) : List CountryRecord :=
  (dedupFirst ((reducedRows rows).map fun r => (r.iso_code, r.iso2_code, r.name))).map
    fun t => { iso_code := t.1, iso2_code := t.2.1, name := t.2.2,
               indicator := indicatorMap (reducedRows rows) t.1 }

/-- Latest-value reduction get_db_countries of api_utils.py, as a function of
the two table contents (the pandas pipeline after the read_sql join). -/
def get_db_countries (cs : List CountriesRow) (ds : List CountryDataRow) : List CountryRecord :=
  recordsOfRows (joinCountries cs ds)

/-- Database state as the reducers see it: whether each backing table exists
in sqlite_master, and the table contents. -/
structure DBState where
  hasCountriesTable : Bool
  hasCountryDataTable : Bool
  countries : List CountriesRow
  country_data : List CountryDataRow
  deriving DecidableEq

/-- Result of a database-backed call that can raise. -/
inductive DbResult (α : Type) where
  | ok (val : α)
  | error (msg : String)
  deriving DecidableEq

/-- The api_utils.py variant of get_db_countries run against a database
state: it performs no table-existence check, so pd.read_sql raises an
OperationalError (modelled as DbResult.error) when a backing table is
missing; otherwise the pure pipeline runs. -/
def get_db_countries_run (db : DBState) : DbResult (List CountryRecord) :=
  if db.hasCountriesTable && db.hasCountryDataTable then
    DbResult.ok (get_db_countries db.countries db.country_data)
  else
    DbResult.error "no such table"

/-- The api_utils_1.py variant of get_db_countries: it first queries
sqlite_master for the two backing tables and returns [] when fewer than two
are present; otherwise the same pipeline runs. -/
def get_db_countries_checked (db : DBState) : List CountryRecord :=
  if db.hasCountriesTable && db.hasCountryDataTable then
    get_db_countries db.countries db.country_data
  else []

/-- Fixed list of the five indicator codes the map endpoints project onto. -/
def fiveIndicatorCodes : List String :=
  ["FP.CPI.TOTL.ZG", "NY.GDP.MKTP.CD", "NY.GDP.PCAP.CD", "SL.UEM.TOTL.ZS", "SP.POP.TOTL"]

/-- Python dict lookup on an association list: the last binding of a key
wins, matching dict insertion semantics. -/
def dictGet (m : List (String × Option Rat)) (k : String) : Option (Option Rat) :=
  m.reverse.lookup k

/-- Indicator formatting shared by the three map endpoints: build the
five-key dictionary via indicator_data.get(code) (absent key and stored None
both give None) and then remove the None-valued entries. -/
def formatIndicator (ind : List (String × Option Rat)) : List (String × Option Rat) :=
  (fiveIndicatorCodes.map fun c => (c, Option.join (dictGet ind c))).filter
    fun p => p.2.isSome

/-- Entry of a map endpoint response. -/
structure MapEntry where
  iso_code : String
  iso2_code : String
  name : String
  indicator : List (String × Option Rat)
  deriving DecidableEq

/-- Formatting of one reduced record into a map endpoint entry. -/
def formatCountryEntry (rec : CountryRecord) : MapEntry :=
  { iso_code := rec.iso_code, iso2_code := rec.iso2_code, name := rec.name,
    indicator := formatIndicator rec.indicator }

/-- GET /country_info/map: every reduced record, formatted. -/
def get_country_map_data (cs : List CountriesRow) (ds : List CountryDataRow) : List MapEntry :=
  (get_db_countries cs ds).map formatCountryEntry

/-- Fixed allow-list of recognized ISO alpha-3 codes, transcribed from
api_utils.py (a Python set; order is immaterial, membership is what is used). -/
def valid_iso3_codes : List String :=
  ["DZA", "BEL", "GNB", "HUN", "NLD", "BWA", "BLZ", "HKG", "FIN", "MLT", "ARM", "MNE", "MNG", "AUS",
   "SWZ", "MRT", "URY", "BIH", "MDG", "BRB", "ECU", "CAF", "SUR", "OMN", "GIN", "MAR", "KHM", "SWE",
   "LVA", "TJK", "MWI", "PRT", "USA", "HND", "PHL", "SDN", "NPL", "TKM", "IRL", "SOM", "BOL", "GMB",
   "LBR", "UKR", "IRN", "LUX", "AUT", "GEO", "NIC", "LBN", "AGO", "COD", "ISR", "CHE", "THA", "RUS",
   "QAT", "TTO", "ITA", "PRI", "TLS", "TZA", "COL", "ALB", "ROU", "COM", "DNK", "MDA", "SRB", "KEN",
   "GBR", "KGZ", "GTM", "JAM", "KOR", "COG", "CYP", "CHN", "MDV", "SYR", "PSE", "IND", "ZAF", "STP",
   "PAK", "SVN", "POL", "LTU", "ESP", "ARG", "GRC", "REU", "HTI", "CRI", "SAU", "GAB", "NZL", "SVK",
   "NER", "LBY", "EGY", "ERI", "SLV", "SEN", "BEN", "CHL", "MLI", "BTN", "SLE", "MKD", "PRY", "NOR",
   "DEU", "JOR", "KWT", "BGD", "ARE", "YEM", "HRV", "LSO", "ZMB", "MOZ", "VNM", "ETH", "NAM", "TUN",
   "AZE", "LKA", "CZE", "PAN", "LAO", "GHA", "BLR", "PER", "AFG", "LIE", "BRA", "DOM", "IDN", "IRQ",
   "BGR", "BDI", "FRA", "BFA", "UZB", "RWA", "EST", "VEN", "CMR", "CUB", "MMR", "TWN", "KAZ", "TUR",
   "FJI", "BHR", "TCD", "PNG", "SGP", "CIV", "MEX", "GUY", "NGA", "CAN", "MUS", "MYS", "JPN", "ISL",
   "TGO", "AND", "UGA", "ZWE", "DJI", "GNQ"]

/-- GET /country_info/map/valid: skip records whose lower-cased name is
world or whose iso_code is outside the allow-list, then format the rest. -/
def get_valid_country_map_data (cs : List CountriesRow) (ds : List CountryDataRow) : List MapEntry :=
  (get_db_countries cs ds).filterMap fun rec =>
    if strLower rec.name = "world" ∨ rec.iso_code ∉ valid_iso3_codes then none
    else some (formatCountryEntry rec)

/-- Fixed list of the seven aggregate geographic region codes. -/
def geo_regions : List String := ["EAS", "ECS", "LCN", "MEA", "NAC", "SAS", "SSF"]

/-- GET /country_info/map/regions: keep only records whose iso_code is one
of the seven aggregate region codes, then format them. -/
def get_region_map_data (cs : List CountriesRow) (ds : List CountryDataRow) : List MapEntry :=
  (get_db_countries cs ds).filterMap fun rec =>
    if rec.iso_code ∉ geo_regions then none
    else some (formatCountryEntry rec)

/-- Row of the country_details cache table (JSON-valued columns kept as
their serialized TEXT form, as stored). -/
structure CountryDetail where
  code : String
  common : String
  official : String
  currencies : String
  capital : String
  region : String
  subregion : String
  languages : String
  borders : String
  area : Rat
  income_level : String
  latitude : Rat
  longitude : Rat
  population : Int
  timezones : String
  deriving DecidableEq

/-- Body of a response of the single-country lookup: either a country
payload or an error object. -/
inductive RespBody where
  | payload (d : CountryDetail)
  | errorObj (msg : String)
  deriving DecidableEq

/-- Outcome of one get_country_info request, with the effects the claims
talk about made explicit: HTTP status, body, whether the database was
queried, whether the external metadata source was called, and the
country_details table after the request. -/
structure LookupOutcome where
  status : Nat
  body : RespBody
  dbQueried : Bool
  externalCalled : Bool
  dbAfter : List CountryDetail
  deriving DecidableEq

/-- Result of the outbound call to the external metadata source
(get_country_info_api): either a parsed detail or an error payload. -/
inductive FetchResult where
  | ok (d : CountryDetail)
  | err (msg : String)
  deriving DecidableEq

/-- save_country_to_db of api_server.py: INSERT OR REPLACE INTO
country_details keyed by the UNIQUE code column, i.e. delete any row with
the same code and append the new row. -/
def save_country_to_db (table : List CountryDetail) (d : CountryDetail) : List CountryDetail :=
  (table.filter fun x => decide (¬ x.code = d.code)) ++ [d]

/-- get_country_info of api_server.py: upper-case the requested code, reject
codes outside the allow-list with a 400 error before touching the database,
otherwise look the code up in country_details (SELECT ... WHERE code = ?,
first matching row); on a hit return the cached row, on a miss call the
external source and, on success, persist the result; an external error
payload is returned as the body of a 200 response, exactly as the handler
returns jsonify(country_data) without a status override. -/
def get_country_info (db : List CountryDetail) (fetch : FetchResult) (code : String) :
    LookupOutcome :=
  let c := strUpper code
  if c ∈ valid_iso3_codes then
    match db.find? fun d => decide (d.code = c) with
    | some d =>
        { status := 200, body := RespBody.payload d, dbQueried := true,
          externalCalled := false, dbAfter := db }
    | none =>
        match fetch with
        | FetchResult.ok d =>
            { status := 200, body := RespBody.payload d, dbQueried := true,
              externalCalled := true, dbAfter := save_country_to_db db d }
        | FetchResult.err m =>
            { status := 200, body := RespBody.errorObj m, dbQueried := true,
              externalCalled := true, dbAfter := db }
  else
    { status := 400, body := RespBody.errorObj "Invalid ISO3 code", dbQueried := false,
      externalCalled := false, dbAfter := db }

/-- Item of the World Bank indicator payload: an observation year (the date
field) and a nullable value. -/
structure WBItem where
  date : Int
  value : Option Rat
  deriving DecidableEq

/-- INSERT OR REPLACE INTO country_data keyed by the primary key
(country_code, indicator_code, year). -/
def insertOrReplaceObs (table : List CountryDataRow) (r : CountryDataRow) : List CountryDataRow :=
  (table.filter fun x =>
    decide (¬ (x.country_code = r.country_code ∧ x.indicator_code = r.indicator_code ∧
               x.year = r.year))) ++ [r]

/-- fetch_single_indicator_data of database.py, restricted to its write
loop: for each fetched item, insert an observation row only when the item
value is not null. -/
def fetch_single_indicator_data (table : List CountryDataRow) (cc ic : String)
    (items : List WBItem) : List CountryDataRow :=
  items.foldl
    (fun acc item =>
      match item.value with
      | some v => insertOrReplaceObs acc
          { country_code := cc, indicator_code := ic, year := item.date, value := some v }
      | none => acc)
    table

/-- Membership in the insertion step of the key sort. -/
theorem mem_insertKey (a k : String × String) (l : List (String × String)) :
    a ∈ insertKey k l ↔ a = k ∨ a ∈ l := by
  induction l with
  | nil => simp [insertKey]
  | cons k2 ks ih =>
    by_cases h : keyLe k k2 = true
    · rw [show insertKey k (k2 :: ks) = k :: k2 :: ks by simp [insertKey, h]]
      simp [List.mem_cons]
    · rw [show insertKey k (k2 :: ks) = k2 :: insertKey k ks by simp [insertKey, h]]
      rw [List.mem_cons, ih, List.mem_cons]
      tauto

/-- Membership is invariant under the key sort. -/
theorem mem_sortKeys (a : String × String) (l : List (String × String)) :
    a ∈ sortKeys l ↔ a ∈ l := by
  induction l with
  | nil => simp [sortKeys]
  | cons k ks ih => simp [sortKeys, mem_insertKey, ih, List.mem_cons]

/-- Membership in first-occurrence deduplication with an accumulator. -/
theorem mem_dedupFirstAux {α : Type} [DecidableEq α] (a : α) :
    ∀ (l seen : List α), a ∈ dedupFirstAux seen l ↔ a ∈ l ∧ a ∉ seen := by
  intro l
  induction l with
  | nil => intro seen; simp [dedupFirstAux]
  | cons b l ih =>
    intro seen
    by_cases hb : b ∈ seen
    · rw [show dedupFirstAux seen (b :: l) = dedupFirstAux seen l by
        simp [dedupFirstAux, hb], ih seen]
      simp only [List.mem_cons]
      constructor
      · exact fun ⟨h1, h2⟩ => ⟨Or.inr h1, h2⟩
      · rintro ⟨h1 | h1, h2⟩
        · exact absurd (h1.symm ▸ hb) h2
        · exact ⟨h1, h2⟩
    · rw [show dedupFirstAux seen (b :: l) = b :: dedupFirstAux (b :: seen) l by
        simp [dedupFirstAux, hb]]
      simp only [List.mem_cons, ih (b :: seen)]
      constructor
      · rintro (h | ⟨h1, h2⟩)
        · exact ⟨Or.inl h, fun hc => hb (h ▸ hc)⟩
        · exact ⟨Or.inr h1, fun hc => h2 (Or.inr hc)⟩
      · rintro ⟨h1 | h1, h2⟩
        · exact Or.inl h1
        · by_cases hab : a = b
          · exact Or.inl hab
          · refine Or.inr ⟨h1, ?_⟩
            rintro (hc | hc)
            · exact hab hc
            · exact h2 hc

/-- Membership is invariant under first-occurrence deduplication. -/
theorem mem_dedupFirst {α : Type} [DecidableEq α] (a : α) (l : List α) :
    a ∈ dedupFirst l ↔ a ∈ l := by
  simp [dedupFirst, mem_dedupFirstAux]

/-- Specification of the idxmax fold once a candidate exists: the fold
yields a row that is the candidate or a list element and whose year bounds
the candidate and every list element. -/
theorem foldl_argmaxStep_spec (l : List JoinedRow) :
    ∀ b : JoinedRow, ∃ r, l.foldl argmaxStep (some b) = some r ∧
      (r = b ∨ r ∈ l) ∧ b.year ≤ r.year ∧ ∀ x ∈ l, x.year ≤ r.year := by
  induction l with
  | nil => exact fun b => ⟨b, rfl, Or.inl rfl, le_refl _, by simp⟩
  | cons x l ih =>
    intro b
    by_cases h : b.year < x.year
    · obtain ⟨r, h1, h2, h3, h4⟩ := ih x
      refine ⟨r, ?_, ?_, ?_, ?_⟩
      · simpa [List.foldl_cons, argmaxStep, h] using h1
      · rcases h2 with h2 | h2
        · exact Or.inr (by rw [h2]; exact List.mem_cons_self x l)
        · exact Or.inr (List.mem_cons_of_mem x h2)
      · exact le_trans (le_of_lt h) h3
      · intro y hy
        rcases List.mem_cons.mp hy with hy | hy
        · rw [hy]; exact h3
        · exact h4 y hy
    · obtain ⟨r, h1, h2, h3, h4⟩ := ih b
      refine ⟨r, ?_, ?_, h3, ?_⟩
      · simpa [List.foldl_cons, argmaxStep, h] using h1
      · rcases h2 with h2 | h2
        · exact Or.inl h2
        · exact Or.inr (List.mem_cons_of_mem x h2)
      · intro y hy
        rcases List.mem_cons.mp hy with hy | hy
        · rw [hy]; exact le_trans (not_lt.mp h) h3
        · exact h4 y hy

/-- Specification of argmaxYear on a nonempty group: it selects a member of
the group whose year is maximal. -/
theorem argmaxYear_spec (g : List JoinedRow) (hg : g ≠ []) :
    ∃ r, argmaxYear g = some r ∧ r ∈ g ∧ ∀ x ∈ g, x.year ≤ r.year := by
  cases g with
  | nil => exact absurd rfl hg
  | cons x l =>
    obtain ⟨r, h1, h2, h3, h4⟩ := foldl_argmaxStep_spec l x
    refine ⟨r, ?_, ?_, ?_⟩
    · simpa [argmaxYear, List.foldl_cons, argmaxStep] using h1
    · rcases h2 with h2 | h2
      · rw [h2]; exact List.mem_cons_self x l
      · exact List.mem_cons_of_mem x h2
    · intro y hy
      rcases List.mem_cons.mp hy with hy | hy
      · rw [hy]; exact h3
      · exact h4 y hy

/-- A row selected by argmaxYear belongs to the group it was selected from. -/
theorem argmaxYear_mem {g : List JoinedRow} {r : JoinedRow}
    (h : argmaxYear g = some r) : r ∈ g := by
  cases g with
  | nil => simp [argmaxYear] at h
  | cons x l =>
    obtain ⟨r2, h1, h2, _, _⟩ := foldl_argmaxStep_spec l x
    have he : argmaxYear (x :: l) = l.foldl argmaxStep (some x) := by
      simp [argmaxYear, List.foldl_cons, argmaxStep]
    rw [he, h1] at h
    injection h with h
    subst h
    rcases h2 with h2 | h2
    · rw [h2]; exact List.mem_cons_self x l
    · exact List.mem_cons_of_mem x h2

/-- Membership in one (iso2_code, indicator_code) group of the join. -/
theorem mem_groupRows {rows : List JoinedRow} {a2 ind : String} {r : JoinedRow} :
    r ∈ groupRows rows a2 ind ↔ r ∈ rows ∧ r.iso2_code = a2 ∧ r.indicator_code = ind := by
  simp [groupRows, List.mem_filter]

/-- The key of any join row is a group key of the reduction. -/
theorem rowKey_mem_groupKeys {rows : List JoinedRow} {r : JoinedRow} (h : r ∈ rows) :
    rowKey r ∈ groupKeys rows := by
  unfold groupKeys
  rw [mem_sortKeys, mem_dedupFirst]
  exact List.mem_map_of_mem rowKey h

/-- Introduction rule for membership in the reduced row list. -/
theorem mem_reducedRows_intro {rows : List JoinedRow} {a2 ind : String} {r : JoinedRow}
    (hk : (a2, ind) ∈ groupKeys rows)
    (h : argmaxYear (groupRows rows a2 ind) = some r) :
    r ∈ reducedRows rows :=
  List.mem_filterMap.mpr ⟨(a2, ind), hk, h⟩

/-- Elimination rule for membership in the reduced row list: a reduced row
is a join row, is the idxmax selection of its own group, and its year bounds
its whole group. -/
theorem mem_reducedRows_elim {rows : List JoinedRow} {r : JoinedRow}
    (h : r ∈ reducedRows rows) :
    r ∈ rows ∧ argmaxYear (groupRows rows r.iso2_code r.indicator_code) = some r ∧
      ∀ x ∈ groupRows rows r.iso2_code r.indicator_code, x.year ≤ r.year := by
  obtain ⟨⟨a2, ind⟩, hk, hf⟩ := List.mem_filterMap.mp h
  have hrg : r ∈ groupRows rows a2 ind := argmaxYear_mem hf
  obtain ⟨hrow, h1, h2⟩ := mem_groupRows.mp hrg
  subst h1
  subst h2
  refine ⟨hrow, hf, ?_⟩
  obtain ⟨r2, e1, _, e3⟩ := argmaxYear_spec _ (List.ne_nil_of_mem hrg)
  rw [e1] at hf
  injection hf with hf
  subst hf
  exact e3

/-- Every reduced row produces a record whose indicator dictionary carries
the rounded value of that row. -/
theorem record_of_reduced {rows : List JoinedRow} {r : JoinedRow}
    (h : r ∈ reducedRows rows) :
    ∃ rec ∈ recordsOfRows rows, rec.iso_code = r.iso_code ∧
      (r.indicator_code, roundedValue r.value) ∈ rec.indicator := by
  have ht : (r.iso_code, r.iso2_code, r.name) ∈
      dedupFirst ((reducedRows rows).map fun x => (x.iso_code, x.iso2_code, x.name)) := by
    rw [mem_dedupFirst]
    exact List.mem_map_of_mem _ h
  refine ⟨_, List.mem_map_of_mem _ ht, rfl, ?_⟩
  have hfil : r ∈ (reducedRows rows).filter fun x => decide (x.iso_code = r.iso_code) := by
    rw [List.mem_filter]
    exact ⟨h, by simp⟩
  simpa [indicatorMap] using List.mem_map_of_mem
    (fun x => (x.indicator_code, roundedValue x.value)) hfil

/-- Elimination rule for membership in a per-country indicator dictionary. -/
theorem mem_indicatorMap_elim {red : List JoinedRow} {a3 : String} {p : String × Option Rat}
    (h : p ∈ indicatorMap red a3) :
    ∃ r ∈ red, r.iso_code = a3 ∧ p.1 = r.indicator_code ∧ p.2 = roundedValue r.value := by
  simp only [indicatorMap] at h
  obtain ⟨r, hr, he⟩ := List.mem_map.mp h
  obtain ⟨hred, hiso⟩ := List.mem_filter.mp hr
  refine ⟨r, hred, by simpa using hiso, ?_, ?_⟩
  · rw [← he]
  · rw [← he]

/-- The indicator dictionary of an emitted record is the per-country
dictionary of its own iso_code. -/
theorem mem_records_elim {rows : List JoinedRow} {rec : CountryRecord}
    (h : rec ∈ recordsOfRows rows) :
    rec.indicator = indicatorMap (reducedRows rows) rec.iso_code := by
  simp only [recordsOfRows] at h
  obtain ⟨t, _, he⟩ := List.mem_map.mp h
  rw [← he]

/-- The value carried by a join row is the value of some country_data row. -/
theorem mem_join_value {cs : List CountriesRow} {ds : List CountryDataRow} {r : JoinedRow}
    (h : r ∈ joinCountries cs ds) :
    ∃ d ∈ ds, r.value = d.value := by
  simp only [joinCountries] at h
  obtain ⟨c, _, hm⟩ := List.mem_flatMap.mp h
  obtain ⟨d, hd, he⟩ := List.mem_map.mp hm
  obtain ⟨hds, _⟩ := List.mem_filter.mp hd
  exact ⟨d, hds, by rw [← he]⟩

/-- An empty join reduces to an empty record list. -/
theorem recordsOfRows_nil : recordsOfRows [] = [] := rfl

/-- Keys appearing in the shared indicator formatting step come from the
fixed five-code list. -/
theorem formatIndicator_keys {ind : List (String × Option Rat)} {p : String × Option Rat}
    (h : p ∈ formatIndicator ind) : p.1 ∈ fiveIndicatorCodes := by
  simp only [formatIndicator] at h
  obtain ⟨hm, _⟩ := List.mem_filter.mp h
  obtain ⟨c, hc, he⟩ := List.mem_map.mp hm
  rw [← he]
  exact hc

/-- Filtering an upserted table by code: the saved code now maps to exactly
the new row, every other code is untouched. -/
theorem filter_code_save (table : List CountryDetail) (d : CountryDetail) (c : String) :
    ((save_country_to_db table d).filter fun x => decide (x.code = c)) =
      if c = d.code then [d] else table.filter fun x => decide (x.code = c) := by
  simp only [save_country_to_db]
  rw [List.filter_append, List.filter_filter]
  by_cases h : c = d.code
  · rw [if_pos h]
    have h1 : (table.filter fun a => decide (a.code = c) && decide (¬ a.code = d.code)) = [] := by
      rw [List.filter_eq_nil_iff]
      intro a _
      subst h
      simp
    rw [h1]
    simp [h]
  · rw [if_neg h]
    have h1 : (table.filter fun a => decide (a.code = c) && decide (¬ a.code = d.code)) =
        table.filter fun x => decide (x.code = c) := by
      apply List.filter_congr
      intro a _
      by_cases ha : a.code = c
      · have hne : ¬ a.code = d.code := fun hh => h (ha ▸ hh)
        simp [ha, hne]
        exact h
      · simp [ha]
    have h2 : ([d].filter fun x => decide (x.code = c)) = [] := by
      simp [show ¬ d.code = c from fun hh => h hh.symm]
    rw [h1, h2, List.append_nil]

/-- Folding any sequence of upserts preserves the at-most-one-row-per-code
invariant of the country_details table. -/
theorem foldl_save_preserves (saves : List CountryDetail) :
    ∀ table : List CountryDetail,
      (∀ c, (table.filter fun x => decide (x.code = c)).length ≤ 1) →
      ∀ c, ((saves.foldl save_country_to_db table).filter
        fun x => decide (x.code = c)).length ≤ 1 := by
  induction saves with
  | nil => exact fun table h => h
  | cons d2 rest ih =>
    intro table h c
    rw [List.foldl_cons]
    apply ih
    intro c2
    rw [filter_code_save]
    by_cases hc : c2 = d2.code
    · rw [if_pos hc]; simp
    · rw [if_neg hc]; exact h c2

/-- Sample countries table with the VNM row used by the spec example. -/
def cs0 : List CountriesRow := [{ iso_code := "VNM", iso2_code := "VN", name := "Vietnam" }]

/-- Sample country_data table: the two population observations of the spec
example, years 2020 and 2021. -/
def ds0 : List CountryDataRow :=
  [{ country_code := "VN", indicator_code := "SP.POP.TOTL", year := 2020, value := some 97100000 },
   { country_code := "VN", indicator_code := "SP.POP.TOTL", year := 2021, value := some 98200000 }]

/-- The join row for the 2020 observation of the sample data. -/
def row2020 : JoinedRow :=
  { iso_code := "VNM", iso2_code := "VN", name := "Vietnam",
    indicator_code := "SP.POP.TOTL", year := 2020, value := some 97100000 }

/-- The record the reduction emits on the sample data: year 2021 wins. -/
def rec0 : CountryRecord :=
  { iso_code := "VNM", iso2_code := "VN", name := "Vietnam",
    indicator := [("SP.POP.TOTL", some 98200000)] }

/-- The map endpoint entry for the sample data. -/
def e0 : MapEntry :=
  { iso_code := "VNM", iso2_code := "VN", name := "Vietnam",
    indicator := [("SP.POP.TOTL", some 98200000)] }

/-- C1: for every (iso2_code, indicator_code) pair present in the joined
observation relation, the idxmax selection yields exactly one surviving row;
it belongs to the group of that pair, its year is the maximum year of the
group, every reduced row for the same pair is that very row, and the
reduction emits a country record whose indicator dictionary carries the
entry of that surviving row. -/
theorem C1_latest_value_reduction (cs : List CountriesRow) (ds : List CountryDataRow)
    (a2 ind : String) (r0 : JoinedRow)
    (h0 : r0 ∈ joinCountries cs ds) (ha : r0.iso2_code = a2) (hi : r0.indicator_code = ind) :
    ∃ r, argmaxYear (groupRows (joinCountries cs ds) a2 ind) = some r ∧
      r ∈ groupRows (joinCountries cs ds) a2 ind ∧
      (∀ x ∈ groupRows (joinCountries cs ds) a2 ind, x.year ≤ r.year) ∧
      r ∈ reducedRows (joinCountries cs ds) ∧
      (∀ r2 ∈ reducedRows (joinCountries cs ds),
        r2.iso2_code = a2 → r2.indicator_code = ind → r2 = r) ∧
      ∃ rec ∈ get_db_countries cs ds, rec.iso_code = r.iso_code ∧
        (ind, roundedValue r.value) ∈ rec.indicator := by
  have h0g : r0 ∈ groupRows (joinCountries cs ds) a2 ind :=
    mem_groupRows.mpr ⟨h0, ha, hi⟩
  obtain ⟨r, he, hm, hmax⟩ := argmaxYear_spec _ (List.ne_nil_of_mem h0g)
  have hk : (a2, ind) ∈ groupKeys (joinCountries cs ds) := by
    have hr0 := rowKey_mem_groupKeys h0
    rwa [rowKey, ha, hi] at hr0
  have hred : r ∈ reducedRows (joinCountries cs ds) := mem_reducedRows_intro hk he
  have hkey : r.iso2_code = a2 ∧ r.indicator_code = ind := (mem_groupRows.mp hm).2
  refine ⟨r, he, hm, hmax, hred, ?_, ?_⟩
  · intro r2 h2 e1 e2
    obtain ⟨_, hf2, _⟩ := mem_reducedRows_elim h2
    rw [e1, e2, he] at hf2
    injection hf2 with hf2
    exact hf2.symm
  · obtain ⟨rec, hrec, hiso, hent⟩ := record_of_reduced hred
    exact ⟨rec, hrec, hiso, by rwa [hkey.2] at hent⟩

/-- C1 witness: the spec example, two population observations for VNM with
years 2020 and 2021, instantiated at the pair (VN, SP.POP.TOTL). -/
theorem C1_witness :
    ∃ r, argmaxYear (groupRows (joinCountries cs0 ds0) "VN" "SP.POP.TOTL") = some r ∧
      r ∈ groupRows (joinCountries cs0 ds0) "VN" "SP.POP.TOTL" ∧
      (∀ x ∈ groupRows (joinCountries cs0 ds0) "VN" "SP.POP.TOTL", x.year ≤ r.year) ∧
      r ∈ reducedRows (joinCountries cs0 ds0) ∧
      (∀ r2 ∈ reducedRows (joinCountries cs0 ds0),
        r2.iso2_code = "VN" → r2.indicator_code = "SP.POP.TOTL" → r2 = r) ∧
      ∃ rec ∈ get_db_countries cs0 ds0, rec.iso_code = r.iso_code ∧
        ("SP.POP.TOTL", roundedValue r.value) ∈ rec.indicator :=
  C1_latest_value_reduction cs0 ds0 "VN" "SP.POP.TOTL" row2020 (by decide) rfl rfl

/-- C2 counterexample data: one country whose only observation carries a
NULL value. -/
def csN : List CountriesRow := [{ iso_code := "AFG", iso2_code := "AF", name := "Afghanistan" }]

/-- C2 counterexample data: a single NULL-valued observation. -/
def dsN : List CountryDataRow :=
  [{ country_code := "AF", indicator_code := "SL.UEM.TOTL.ZS", year := 2021, value := none }]

/-- C2 counterexample: the reducer itself emits an indicator entry whose
value is None when the maximum-year observation for the pair is NULL, so the
reduced output is not free of null entries. -/
theorem C2_counterexample :
    ∃ rec ∈ get_db_countries csN dsN, ∃ p ∈ rec.indicator, p.2 = none := by decide

/-- C2 as amended: the HTTP formatting layer of the map endpoint removes the
None-valued entries, so every indicator entry of the response is non-null;
and whenever every stored observation value is non-null (which ingestion
guarantees), the reducer itself emits no null entry either. -/
theorem C2_no_null_in_output (cs : List CountriesRow) (ds : List CountryDataRow) :
    (∀ e ∈ get_country_map_data cs ds, ∀ p ∈ e.indicator, p.2.isSome = true) ∧
    ((∀ d ∈ ds, d.value ≠ none) →
      ∀ rec ∈ get_db_countries cs ds, ∀ p ∈ rec.indicator, p.2 ≠ none) := by
  constructor
  · intro e he p hp
    simp only [get_country_map_data] at he
    obtain ⟨rec, _, hrec⟩ := List.mem_map.mp he
    rw [← hrec] at hp
    have hp2 : p ∈ formatIndicator rec.indicator := hp
    simp only [formatIndicator] at hp2
    exact (List.mem_filter.mp hp2).2
  · intro hds rec hrec p hp
    rw [mem_records_elim hrec] at hp
    obtain ⟨r, hred, _, _, hp2⟩ := mem_indicatorMap_elim hp
    obtain ⟨hrows, _, _⟩ := mem_reducedRows_elim hred
    obtain ⟨d, hd, hvd⟩ := mem_join_value hrows
    intro hnone
    rw [hp2, roundedValue, Option.map_eq_none'] at hnone
    exact hds d hd (by rw [← hvd]; exact hnone)

/-- C2 witness: on the sample data both parts of the amended statement
produce the non-null population entry. -/
theorem C2_witness :
    (("SP.POP.TOTL", some (98200000 : Rat)) : String × Option Rat).2.isSome = true ∧
    (("SP.POP.TOTL", some (98200000 : Rat)) : String × Option Rat).2 ≠ none :=
  ⟨(C2_no_null_in_output cs0 ds0).1 e0 (by decide)
      ("SP.POP.TOTL", some (98200000 : Rat)) (by decide),
   (C2_no_null_in_output cs0 ds0).2 (by decide) rec0 (by decide)
      ("SP.POP.TOTL", some (98200000 : Rat)) (by decide)⟩

/-- Database state in which neither backing table exists. -/
def noTablesDB : DBState :=
  { hasCountriesTable := false, hasCountryDataTable := false, countries := [], country_data := [] }

/-- Database state in which both backing tables exist but are empty. -/
def emptyTablesDB : DBState :=
  { hasCountriesTable := true, hasCountryDataTable := true, countries := [], country_data := [] }

/-- C3 counterexample: the api_utils.py reducer, the one the HTTP server
imports, raises (pandas read_sql propagates the missing-table error) instead
of returning an empty sequence when the backing tables do not exist. -/
theorem C3_counterexample :
    get_db_countries_run noTablesDB = DbResult.error "no such table" ∧
    get_db_countries_run noTablesDB ≠ DbResult.ok [] := by
  exact ⟨rfl, by decide⟩

/-- C3 as amended: on an empty observation relation both reducer variants
return the empty sequence, and when a backing table is missing the
api_utils_1.py variant (the one that checks sqlite_master) returns the empty
sequence, while the api_utils.py variant raises and the HTTP layer reports
the error. -/
theorem C3_empty_and_missing_tables (db : DBState) :
    ((db.hasCountriesTable && db.hasCountryDataTable) = false →
      get_db_countries_checked db = []) ∧
    (joinCountries db.countries db.country_data = [] →
      get_db_countries_checked db = [] ∧
      get_db_countries db.countries db.country_data = [] ∧
      ((db.hasCountriesTable && db.hasCountryDataTable) = true →
        get_db_countries_run db = DbResult.ok [])) := by
  have hmain : joinCountries db.countries db.country_data = [] →
      get_db_countries db.countries db.country_data = [] := by
    intro hj
    show recordsOfRows (joinCountries db.countries db.country_data) = []
    rw [hj]
    exact recordsOfRows_nil
  constructor
  · intro h
    simp [get_db_countries_checked, h]
  · intro hj
    refine ⟨?_, hmain hj, ?_⟩
    · by_cases ht : (db.hasCountriesTable && db.hasCountryDataTable) = true
      · simp [get_db_countries_checked, ht, hmain hj]
      · simp [get_db_countries_checked, ht]
    · intro ht
      simp [get_db_countries_run, ht, hmain hj]

/-- C3 witness: the missing-table state and the empty-table state, each
evaluated on both reducer variants. -/
theorem C3_witness :
    get_db_countries_checked noTablesDB = [] ∧
    get_db_countries_checked emptyTablesDB = [] ∧
    get_db_countries_run emptyTablesDB = DbResult.ok [] :=
  ⟨(C3_empty_and_missing_tables noTablesDB).1 rfl,
   ((C3_empty_and_missing_tables emptyTablesDB).2 rfl).1,
   ((C3_empty_and_missing_tables emptyTablesDB).2 rfl).2.2 rfl⟩

/-- Cached detail row for a code that the World Bank country list contains
but the hardcoded server allow-list does not. -/
def kosovoDetail : CountryDetail :=
  { code := "XKX", common := "Kosovo", official := "Republic of Kosovo", currencies := "",
    capital := "Pristina", region := "Europe", subregion := "Southeast Europe", languages := "",
    borders := "", area := 10887, income_level := "Upper middle income", latitude := 42,
    longitude := 21, population := 1775378, timezones := "" }

/-- Cached detail row for VNM, an allow-listed code. -/
def vnmDetail : CountryDetail :=
  { code := "VNM", common := "Vietnam", official := "Socialist Republic of Vietnam",
    currencies := "", capital := "Hanoi", region := "Asia", subregion := "South-Eastern Asia",
    languages := "", borders := "", area := 331212, income_level := "Lower middle income",
    latitude := 14, longitude := 108, population := 97338579, timezones := "" }

/-- C4 counterexample: a record cached under code XKX (present in the
country_details table, as ingestion can store it) is not returned by the
lookup, because the allow-list check rejects the code with a 400 before the
cache is consulted. -/
theorem C4_counterexample :
    (get_country_info [kosovoDetail] (FetchResult.err "unreachable") "XKX").status = 400 ∧
    (get_country_info [kosovoDetail] (FetchResult.err "unreachable") "XKX").body ≠
      RespBody.payload kosovoDetail ∧
    kosovoDetail.code = "XKX" := by decide

/-- C4 as amended: for an allow-listed code whose detail is cached, the
lookup returns the cached record, calls no external source and leaves the
table unchanged; and whenever the external source is called, the code passed
validation and the cache lookup missed. -/
theorem C4_cache_hit_no_external_call (db : List CountryDetail) (fetch : FetchResult)
    (code : String) :
    (∀ d, strUpper code ∈ valid_iso3_codes →
      (db.find? fun x => decide (x.code = strUpper code)) = some d →
      (get_country_info db fetch code).body = RespBody.payload d ∧
      (get_country_info db fetch code).externalCalled = false ∧
      (get_country_info db fetch code).dbAfter = db) ∧
    ((get_country_info db fetch code).externalCalled = true →
      strUpper code ∈ valid_iso3_codes ∧
      (db.find? fun x => decide (x.code = strUpper code)) = none) := by
  constructor
  · intro d hv hf
    simp [get_country_info, hv, hf]
  · intro hext
    by_cases hv : strUpper code ∈ valid_iso3_codes
    · refine ⟨hv, ?_⟩
      cases hf : db.find? fun x => decide (x.code = strUpper code) with
      | none => rfl
      | some d => simp [get_country_info, hv, hf] at hext
    · simp [get_country_info, hv] at hext

/-- C4 witness: a cache hit for VNM returns the cached row with no external
call, and a run that did call the external source had an empty cache. -/
theorem C4_witness :
    ((get_country_info [vnmDetail] (FetchResult.err "down") "VNM").body =
        RespBody.payload vnmDetail ∧
      (get_country_info [vnmDetail] (FetchResult.err "down") "VNM").externalCalled = false ∧
      (get_country_info [vnmDetail] (FetchResult.err "down") "VNM").dbAfter = [vnmDetail]) ∧
    (strUpper "VNM" ∈ valid_iso3_codes ∧
      (([] : List CountryDetail).find? fun x => decide (x.code = strUpper "VNM")) = none) :=
  ⟨(C4_cache_hit_no_external_call [vnmDetail] (FetchResult.err "down") "VNM").1 vnmDetail
      (by decide) (by decide),
   (C4_cache_hit_no_external_call [] (FetchResult.ok vnmDetail) "VNM").2 (by decide)⟩

/-- C5: every record of the valid-countries view has a name that does not
case-insensitively equal world and an iso_code inside the fixed allow-list. -/
theorem C5_valid_view_filtered (cs : List CountriesRow) (ds : List CountryDataRow)
    (e : MapEntry) (he : e ∈ get_valid_country_map_data cs ds) :
    strLower e.name ≠ "world" ∧ e.iso_code ∈ valid_iso3_codes := by
  obtain ⟨rec, _, hf⟩ := List.mem_filterMap.mp he
  by_cases hc : strLower rec.name = "world" ∨ rec.iso_code ∉ valid_iso3_codes
  · rw [if_pos hc] at hf
    exact absurd hf (by simp)
  · rw [if_neg hc] at hf
    injection hf with hf
    rw [not_or] at hc
    rw [← hf]
    exact ⟨hc.1, not_not.mp hc.2⟩

/-- C5 witness: the VNM record of the sample data appears in the valid view
and satisfies both conditions. -/
theorem C5_witness :
    strLower e0.name ≠ "world" ∧ e0.iso_code ∈ valid_iso3_codes :=
  C5_valid_view_filtered cs0 ds0 e0 (by decide)

/-- C6: a request whose upper-cased code is outside the allow-list gets a
400 error payload and triggers neither a database query nor an external
call, and the table is untouched. -/
theorem C6_invalid_code_rejected (db : List CountryDetail) (fetch : FetchResult)
    (code : String) (h : strUpper code ∉ valid_iso3_codes) :
    (get_country_info db fetch code).status = 400 ∧
    (get_country_info db fetch code).body = RespBody.errorObj "Invalid ISO3 code" ∧
    (get_country_info db fetch code).dbQueried = false ∧
    (get_country_info db fetch code).externalCalled = false ∧
    (get_country_info db fetch code).dbAfter = db := by
  simp [get_country_info, h]

/-- C6 witness: the lower-case request xx upper-cases to XX, which is not an
allow-listed code. -/
theorem C6_witness :
    (get_country_info [vnmDetail] (FetchResult.err "down") "xx").status = 400 ∧
    (get_country_info [vnmDetail] (FetchResult.err "down") "xx").body =
      RespBody.errorObj "Invalid ISO3 code" ∧
    (get_country_info [vnmDetail] (FetchResult.err "down") "xx").dbQueried = false ∧
    (get_country_info [vnmDetail] (FetchResult.err "down") "xx").externalCalled = false ∧
    (get_country_info [vnmDetail] (FetchResult.err "down") "xx").dbAfter = [vnmDetail] :=
  C6_invalid_code_rejected [vnmDetail] (FetchResult.err "down") "xx" (by decide)

/-- C7: saving the same detail twice leaves exactly the new row for its
code, and any sequence of upserts starting from a table with at most one row
per code ends with at most one row per code. -/
theorem C7_upsert_single_record (table : List CountryDetail) (d : CountryDetail)
    (saves : List CountryDetail) :
    ((save_country_to_db (save_country_to_db table d) d).filter
      fun x => decide (x.code = d.code)) = [d] ∧
    ((∀ c, (table.filter fun x => decide (x.code = c)).length ≤ 1) →
      ∀ c, ((saves.foldl save_country_to_db table).filter
        fun x => decide (x.code = c)).length ≤ 1) :=
  ⟨by rw [filter_code_save, if_pos rfl], fun h => foldl_save_preserves saves table h⟩

/-- C7 witness: upserting the VNM detail twice into an empty table, and the
invariant after the corresponding fold. -/
theorem C7_witness :
    ((save_country_to_db (save_country_to_db [] vnmDetail) vnmDetail).filter
      fun x => decide (x.code = vnmDetail.code)) = [vnmDetail] ∧
    (([vnmDetail, vnmDetail].foldl save_country_to_db []).filter
      fun x => decide (x.code = "VNM")).length ≤ 1 :=
  ⟨(C7_upsert_single_record [] vnmDetail [vnmDetail, vnmDetail]).1,
   (C7_upsert_single_record [] vnmDetail [vnmDetail, vnmDetail]).2
     (fun c => by simp) "VNM"⟩

/-- C8: every non-null value in an emitted indicator dictionary is the
two-decimal round-half-to-even rounding (the semantics of the Python round
built-in, taken exactly on rationals) of the raw value of the selected
observation row, i.e. the row of maximum year for that country and
indicator. -/
theorem C8_two_decimal_rounding (cs : List CountriesRow) (ds : List CountryDataRow)
    (rec : CountryRecord) (hrec : rec ∈ get_db_countries cs ds)
    (p : String × Option Rat) (hp : p ∈ rec.indicator) (v : Rat) (hv : p.2 = some v) :
    ∃ r ∈ reducedRows (joinCountries cs ds),
      r.iso_code = rec.iso_code ∧ r.indicator_code = p.1 ∧
      (∀ x ∈ groupRows (joinCountries cs ds) r.iso2_code r.indicator_code, x.year ≤ r.year) ∧
      ∃ raw, r.value = some raw ∧ v = roundTo2 raw := by
  have hrec2 : rec ∈ recordsOfRows (joinCountries cs ds) := hrec
  have hind := mem_records_elim hrec2
  rw [hind] at hp
  obtain ⟨r, hred, hiso, hp1, hp2⟩ := mem_indicatorMap_elim hp
  obtain ⟨_, _, hmax⟩ := mem_reducedRows_elim hred
  rw [hp2, roundedValue] at hv
  obtain ⟨raw, hraw, hvr⟩ := Option.map_eq_some'.mp hv
  exact ⟨r, hred, hiso, hp1.symm, hmax, raw, hraw, hvr.symm⟩

/-- C8 witness: on the sample data the emitted population value 98200000 is
the rounding of the raw value of the selected year-2021 row. -/
theorem C8_witness :
    ∃ r ∈ reducedRows (joinCountries cs0 ds0),
      r.iso_code = rec0.iso_code ∧
      r.indicator_code = (("SP.POP.TOTL", some (98200000 : Rat)) : String × Option Rat).1 ∧
      (∀ x ∈ groupRows (joinCountries cs0 ds0) r.iso2_code r.indicator_code, x.year ≤ r.year) ∧
      ∃ raw, r.value = some raw ∧ (98200000 : Rat) = roundTo2 raw :=
  C8_two_decimal_rounding cs0 ds0 rec0 (by decide)
    ("SP.POP.TOTL", some (98200000 : Rat)) (by decide) 98200000 rfl

/-- Sample region tables for the regions view: the EAS aggregate. -/
def csR : List CountriesRow :=
  [{ iso_code := "EAS", iso2_code := "Z4", name := "East Asia and Pacific" }]

/-- Sample observation for the EAS aggregate. -/
def dsR : List CountryDataRow :=
  [{ country_code := "Z4", indicator_code := "NY.GDP.MKTP.CD", year := 2022,
     value := some 30000000 }]

/-- The regions view entry for the sample region data. -/
def eR : MapEntry :=
  { iso_code := "EAS", iso2_code := "Z4", name := "East Asia and Pacific",
    indicator := [("NY.GDP.MKTP.CD", some 30000000)] }

/-- C9: every indicator key of every entry of the three map endpoints comes
from the fixed five-code list. -/
theorem C9_fixed_indicator_keys (cs : List CountriesRow) (ds : List CountryDataRow) :
    (∀ e ∈ get_country_map_data cs ds, ∀ p ∈ e.indicator, p.1 ∈ fiveIndicatorCodes) ∧
    (∀ e ∈ get_valid_country_map_data cs ds, ∀ p ∈ e.indicator, p.1 ∈ fiveIndicatorCodes) ∧
    (∀ e ∈ get_region_map_data cs ds, ∀ p ∈ e.indicator, p.1 ∈ fiveIndicatorCodes) := by
  refine ⟨?_, ?_, ?_⟩
  · intro e he p hp
    simp only [get_country_map_data] at he
    obtain ⟨rec, _, hrec⟩ := List.mem_map.mp he
    rw [← hrec] at hp
    exact formatIndicator_keys hp
  · intro e he p hp
    obtain ⟨rec, _, hf⟩ := List.mem_filterMap.mp he
    by_cases hc : strLower rec.name = "world" ∨ rec.iso_code ∉ valid_iso3_codes
    · rw [if_pos hc] at hf
      exact absurd hf (by simp)
    · rw [if_neg hc] at hf
      injection hf with hf
      rw [← hf] at hp
      exact formatIndicator_keys hp
  · intro e he p hp
    obtain ⟨rec, _, hf⟩ := List.mem_filterMap.mp he
    by_cases hc : rec.iso_code ∉ geo_regions
    · rw [if_pos hc] at hf
      exact absurd hf (by simp)
    · rw [if_neg hc] at hf
      injection hf with hf
      rw [← hf] at hp
      exact formatIndicator_keys hp

/-- C9 witness: the population entry of the sample country and the GDP entry
of the sample region, through each of the three endpoints. -/
theorem C9_witness :
    ("SP.POP.TOTL" : String) ∈ fiveIndicatorCodes ∧
    ("SP.POP.TOTL" : String) ∈ fiveIndicatorCodes ∧
    ("NY.GDP.MKTP.CD" : String) ∈ fiveIndicatorCodes :=
  ⟨(C9_fixed_indicator_keys cs0 ds0).1 e0 (by decide)
      ("SP.POP.TOTL", some (98200000 : Rat)) (by decide),
   (C9_fixed_indicator_keys cs0 ds0).2.1 e0 (by decide)
      ("SP.POP.TOTL", some (98200000 : Rat)) (by decide),
   (C9_fixed_indicator_keys csR dsR).2.2 eR (by decide)
      ("NY.GDP.MKTP.CD", some (30000000 : Rat)) (by decide)⟩

/-- C10: the ingestion write loop inserts a row only for non-null item
values, so if every row of country_data is non-null before the call, every
row is non-null after it. -/
theorem C10_ingestion_never_writes_null (table : List CountryDataRow) (cc ic : String)
    (items : List WBItem) (h : ∀ r ∈ table, r.value ≠ none) :
    ∀ r ∈ fetch_single_indicator_data table cc ic items, r.value ≠ none := by
  revert h
  induction items generalizing table with
  | nil => exact fun h => h
  | cons item rest ih =>
    intro h
    cases hv : item.value with
    | none =>
      have he : fetch_single_indicator_data table cc ic (item :: rest) =
          fetch_single_indicator_data table cc ic rest := by
        simp [fetch_single_indicator_data, List.foldl_cons, hv]
      rw [he]
      exact ih table h
    | some v =>
      have he : fetch_single_indicator_data table cc ic (item :: rest) =
          fetch_single_indicator_data
            (insertOrReplaceObs table
              { country_code := cc, indicator_code := ic, year := item.date,
                value := some v }) cc ic rest := by
        simp [fetch_single_indicator_data, List.foldl_cons, hv]
      rw [he]
      apply ih
      intro r hr
      simp only [insertOrReplaceObs] at hr
      rcases List.mem_append.mp hr with hr | hr
      · exact h r (List.mem_filter.mp hr).1
      · rw [List.mem_singleton] at hr
        rw [hr]
        simp

/-- Items as the World Bank payload delivers them: one non-null value and
one null value. -/
def items0 : List WBItem := [{ date := 2021, value := some 5 }, { date := 2020, value := none }]

/-- C10 witness: ingesting the two sample items into an empty table writes
only the non-null 2021 row, and that row has a non-null value. -/
theorem C10_witness :
    ({ country_code := "VN", indicator_code := "SP.POP.TOTL", year := 2021,
       value := some 5 } : CountryDataRow).value ≠ none :=
  C10_ingestion_never_writes_null [] "VN" "SP.POP.TOTL" items0 (by decide)
    { country_code := "VN", indicator_code := "SP.POP.TOTL", year := 2021, value := some 5 }
    (by decide)

/-- Correctness of the integer rounding rule: for a positive denominator the
result differs from the exact fraction by at most one half (stated without
division: twice the signed error n - e * d lies between -d and d), and an
exact half-way error only occurs with an even result. -/
theorem roundHalfEvenInt_spec (n d : Int) (hd : 0 < d) :
    -d ≤ 2 * (n - roundHalfEvenInt n d * d) ∧
    2 * (n - roundHalfEvenInt n d * d) ≤ d ∧
    ((2 * (n - roundHalfEvenInt n d * d) = d ∨ 2 * (n - roundHalfEvenInt n d * d) = -d) →
      roundHalfEvenInt n d % 2 = 0) := by
  have hmod := Int.fdiv_add_fmod n d
  have hr0 : 0 ≤ n.fmod d := Int.fmod_nonneg' n hd
  have hrd : n.fmod d < d := Int.fmod_lt_of_pos n hd
  have hrew : n - n.fdiv d * d = n.fmod d := by
    rw [Int.mul_comm] at hmod
    linarith
  have hrew2 : n - (n.fdiv d + 1) * d = n.fmod d - d := by
    rw [add_mul, one_mul]
    linarith
  unfold roundHalfEvenInt
  split_ifs with h1 h2 h3
  · rw [hrew] at h1 ⊢
    refine ⟨by linarith, by linarith, ?_⟩
    rintro (ht | ht)
    · exact absurd ht (ne_of_lt h1)
    · exfalso; linarith
  · rw [hrew] at h1 h2
    rw [hrew2]
    refine ⟨by linarith, by linarith, ?_⟩
    rintro (ht | ht) <;> exfalso <;> linarith
  · rw [hrew] at h1 h2 ⊢
    have hm : 2 * n.fmod d = d := by linarith
    exact ⟨by linarith, by linarith, fun _ => h3⟩
  · rw [hrew] at h1 h2
    rw [hrew2]
    have hm : 2 * n.fmod d = d := by linarith
    refine ⟨by linarith, by linarith, fun _ => ?_⟩
    omega

/-- Witness for the rounding correctness lemma at the half-way fraction
25 / 2, which rounds up to the even value 13 with signed error -1. -/
theorem roundHalfEvenInt_spec_witness :
    -2 ≤ 2 * ((25 : Int) - roundHalfEvenInt 25 2 * 2) ∧
    2 * ((25 : Int) - roundHalfEvenInt 25 2 * 2) ≤ 2 ∧
    ((2 * ((25 : Int) - roundHalfEvenInt 25 2 * 2) = 2 ∨
      2 * ((25 : Int) - roundHalfEvenInt 25 2 * 2) = -2) →
      roundHalfEvenInt 25 2 % 2 = 0) :=
  roundHalfEvenInt_spec 25 2 (by decide)

/-- The tie 0.125 rounds down to the even second decimal, 0.12. -/
theorem roundTo2_tie_to_even_down : roundTo2 (Rat.divInt 1 8) = Rat.divInt 12 100 := by decide

/-- The tie 0.135 rounds up to the even second decimal, 0.14. -/
theorem roundTo2_tie_to_even_up : roundTo2 (Rat.divInt 27 200) = Rat.divInt 14 100 := by decide
